import Mathlib

/-!
Verification of the fuse-rs session core against its specification.

This file shallowly embeds the reply encoder (src/reply.rs), the directory
reply buffer (src/reply.rs, ReplyDirectory), request parsing and dispatch
(src/request.rs), the old dispatcher of src/session.rs, the session read
loop (fuse/src/session.rs and src/lowlevel/session.rs) and the channel
sender (src/channel.rs). Machine integers are modelled as Nat or Int with
explicit reductions modulo 2^w where the code truncates; byte buffers are
List Nat (each element one byte).
-/

/-! ### Errno constants (Linux values of the libc crate) -/

def eioErrno : Int := 5
def enosysErrno : Int := 38
def eprotoErrno : Int := 71
def enoentErrno : Int := 2
def eintrErrno : Int := 4
def eagainErrno : Int := 11
def enodevErrno : Int := 19

/-! ### Little-endian serialization of the wire integers -/

/-- Little-endian bytes of a u16. -/
def u16le (n : Nat) : List Nat := [n % 256, n / 256 % 256]

/-- Little-endian bytes of a u32. -/
def u32le (n : Nat) : List Nat :=
  [n % 256, n / 256 % 256, n / 65536 % 256, n / 16777216 % 256]

/-- Little-endian bytes of a u64. -/
def u64le (n : Nat) : List Nat :=
  [n % 256, n / 256 % 256, n / 65536 % 256, n / 16777216 % 256,
   n / 4294967296 % 256, n / 1099511627776 % 256,
   n / 281474976710656 % 256, n / 72057594037927936 % 256]

/-- Little-endian bytes of an i32, two's complement. -/
def i32le (z : Int) : List Nat := u32le (z % 4294967296).toNat

/-- Decode a little-endian byte list back into a natural number. -/
def decodeLE (bs : List Nat) : Nat := bs.foldr (fun b acc => b + 256 * acc) 0

theorem decodeLE_u32le (n : Nat) (h : n < 4294967296) : decodeLE (u32le n) = n := by
  simp [decodeLE, u32le]
  omega

theorem decodeLE_u64le (n : Nat) (h : n < 18446744073709551616) :
    decodeLE (u64le n) = n := by
  simp [decodeLE, u64le]
  omega

/-! ### Wire records (src/kernel.rs) -/

/-- The 16-byte reply header of src/kernel.rs: `fuse_out_header { len, error, unique }`. -/
structure fuse_out_header where
  len : Nat
  error : Int
  unique : Nat
deriving DecidableEq, Repr

/-- Serialization of a `fuse_out_header` (as_bytes of the repr(C) record,
little-endian host). -/
def fuse_out_header.bytes (h : fuse_out_header) : List Nat :=
  u32le h.len ++ i32le h.error ++ u64le h.unique

theorem fuse_out_header.bytes_length (h : fuse_out_header) : h.bytes.length = 16 := by
  simp [fuse_out_header.bytes, u32le, i32le, u64le]

theorem fuse_out_header.bytes_take4 (h : fuse_out_header) :
    h.bytes.take 4 = u32le h.len := by
  simp [fuse_out_header.bytes, u32le, i32le, u64le]

theorem fuse_out_header.bytes_drop4_take4 (h : fuse_out_header) :
    (h.bytes.drop 4).take 4 = i32le h.error := by
  simp [fuse_out_header.bytes, u32le, i32le, u64le]

theorem fuse_out_header.bytes_drop8 (h : fuse_out_header) :
    h.bytes.drop 8 = u64le h.unique := by
  simp [fuse_out_header.bytes, u32le, i32le, u64le]

theorem decodeLE_i32le (z : Int) : decodeLE (i32le z) = (z % 4294967296).toNat := by
  rw [i32le]
  exact decodeLE_u32le _ (by omega)

/-- The 40-byte request header of src/kernel.rs: `fuse_in_header`. -/
structure fuse_in_header where
  len : Nat
  opcode : Nat
  unique : Nat
  nodeid : Nat
  uid : Nat
  gid : Nat
  pid : Nat
  padding : Nat
deriving DecidableEq, Repr

/-! ### Reply encoder (src/reply.rs, ReplyRaw) -/

/-- State of a `ReplyRaw`: the request's unique id and whether the sender
closure is still present (`sender: Option<Box<Invoke>>`; terminal methods
take it, the destructor checks `is_some`). -/
structure ReplyRaw where
  unique : Nat
  sender_present : Bool
deriving DecidableEq, Repr

/-- Total payload length: the fold `bytes.iter().fold(0, |l, b| l + b.len())`
of ReplyRaw::send. -/
def payloadLen (bytes : List (List Nat)) : Nat :=
  bytes.foldl (fun l b => l + b.length) 0

/-- ReplyRaw::send (src/reply.rs lines 127-141): builds a `fuse_out_header`
with `len = size_of::<fuse_out_header>() + payload`, `error = -err`, the
request's unique, and invokes the sender once with the header bytes followed
by the payload byte groups. Returns the consumed reply state and the byte
groups handed to the sender. -/
def ReplyRaw.send (r : ReplyRaw) (err : Int) (bytes : List (List Nat)) :
    ReplyRaw × List (List Nat) :=
  let len := payloadLen bytes
  let header : fuse_out_header := { len := 16 + len, error := -err, unique := r.unique }
  ({ r with sender_present := false }, header.bytes :: bytes)

/-- ReplyRaw::ok: serializes the typed data (as_bytes yields no group for a
zero-sized type, one group otherwise) and sends with error code 0. -/
def ReplyRaw.ok (r : ReplyRaw) (dataBytes : List Nat) : ReplyRaw × List (List Nat) :=
  ReplyRaw.send r 0 (if dataBytes.length = 0 then [] else [dataBytes])

/-- ReplyRaw::error: sends with the given error code and no payload. -/
def ReplyRaw.error (r : ReplyRaw) (err : Int) : ReplyRaw × List (List Nat) :=
  ReplyRaw.send r err []

/-- Drop for ReplyRaw (src/reply.rs lines 156-164): if the sender is still
present, send an eioErrno error reply; otherwise nothing. Returns the list of
messages (byte-group lists) emitted by the destructor. -/
def ReplyRaw.drop (r : ReplyRaw) : List (List (List Nat)) :=
  if r.sender_present then [(ReplyRaw.send r eioErrno []).2] else []

/-- C1: every reply emitted through a terminal method goes through
ReplyRaw::send; the out-header written first has len = 16 + total payload
bytes, unique = the request's unique, and error = -err (0 when err = 0, the
negated errno on failure). The decode conjuncts read the fields back off the
serialized wire bytes. -/
theorem c1_send_out_header (u : Nat) (err : Int) (bytes : List (List Nat))
    (hu : u < 18446744073709551616) (hl : 16 + payloadLen bytes < 4294967296) :
    (ReplyRaw.send ⟨u, true⟩ err bytes).2
        = fuse_out_header.bytes ⟨16 + payloadLen bytes, -err, u⟩ :: bytes
    ∧ decodeLE ((fuse_out_header.bytes ⟨16 + payloadLen bytes, -err, u⟩).take 4)
        = 16 + payloadLen bytes
    ∧ decodeLE (((fuse_out_header.bytes ⟨16 + payloadLen bytes, -err, u⟩).drop 4).take 4)
        = ((-err) % 4294967296).toNat
    ∧ decodeLE ((fuse_out_header.bytes ⟨16 + payloadLen bytes, -err, u⟩).drop 8) = u
    ∧ (err = 0 → ((-err) % 4294967296).toNat = 0)
    ∧ (0 < err → err < 2147483648 → ((-err) % 4294967296).toNat = 4294967296 - err.toNat)
    ∧ ((ReplyRaw.send ⟨u, true⟩ err bytes).1).sender_present = false := by
  refine ⟨rfl, ?_, ?_, ?_, ?_, ?_, rfl⟩
  · rw [fuse_out_header.bytes_take4]
    exact decodeLE_u32le _ hl
  · rw [fuse_out_header.bytes_drop4_take4]
    exact decodeLE_i32le _
  · rw [fuse_out_header.bytes_drop8]
    exact decodeLE_u64le _ hu
  · intro h
    simp [h]
  · intro h1 h2
    omega

theorem c1_send_out_header_witness :
    (3735928559 : Nat) < 18446744073709551616
    ∧ 16 + payloadLen [[1, 2, 3]] < 4294967296
    ∧ (ReplyRaw.send ⟨3735928559, true⟩ 0 [[1, 2, 3]]).2
        = fuse_out_header.bytes ⟨16 + payloadLen [[1, 2, 3]], -0, 3735928559⟩ :: [[1, 2, 3]] :=
  ⟨by decide, by decide,
    (c1_send_out_header 3735928559 0 [[1, 2, 3]] (by decide) (by decide)).1⟩

/-- C2: a ReplyRaw destroyed with its sender still present emits exactly one
reply, a bare out-header with len = 16, error = -eioErrno and the request's
unique; after any terminal method the sender is gone and the destructor
emits nothing. -/
theorem c2_drop_sends_eio (u : Nat) (hu : u < 18446744073709551616) :
    ReplyRaw.drop ⟨u, true⟩ = [[fuse_out_header.bytes ⟨16, -eioErrno, u⟩]]
    ∧ (fuse_out_header.bytes ⟨16, -eioErrno, u⟩).length = 16
    ∧ decodeLE ((fuse_out_header.bytes ⟨16, -eioErrno, u⟩).take 4) = 16
    ∧ decodeLE (((fuse_out_header.bytes ⟨16, -eioErrno, u⟩).drop 4).take 4) = 4294967291
    ∧ decodeLE ((fuse_out_header.bytes ⟨16, -eioErrno, u⟩).drop 8) = u
    ∧ ReplyRaw.drop ⟨u, false⟩ = []
    ∧ (∀ err bytes, ReplyRaw.drop ((ReplyRaw.send ⟨u, true⟩ err bytes).1) = []) := by
  refine ⟨rfl, ?_, ?_, ?_, ?_, rfl, fun err bytes => rfl⟩
  · exact fuse_out_header.bytes_length _
  · rw [fuse_out_header.bytes_take4]
    exact decodeLE_u32le _ (by norm_num)
  · rw [fuse_out_header.bytes_drop4_take4, decodeLE_i32le]
    simp [eioErrno]
  · rw [fuse_out_header.bytes_drop8]
    exact decodeLE_u64le _ hu

theorem c2_drop_sends_eio_witness :
    (3735928559 : Nat) < 18446744073709551616
    ∧ ReplyRaw.drop ⟨3735928559, true⟩ = [[fuse_out_header.bytes ⟨16, -eioErrno, 3735928559⟩]] :=
  ⟨by decide, (c2_drop_sends_eio 3735928559 (by decide)).1⟩

/-! ### Directory reply buffer (src/reply.rs, ReplyDirectory) -/

/-- File type enumeration matched by mode_from_kind_and_perm (src/reply.rs). -/
inductive FileType where
  | NamedPipe
  | CharDevice
  | BlockDevice
  | Directory
  | RegularFile
  | Symlink
deriving DecidableEq, Repr

/-- Linux values of the libc S_IF* mode bits. -/
def S_IFIFO : Nat := 4096
def S_IFCHR : Nat := 8192
def S_IFBLK : Nat := 24576
def S_IFDIR : Nat := 16384
def S_IFREG : Nat := 32768
def S_IFLNK : Nat := 40960

/-- mode_from_kind_and_perm (src/reply.rs lines 48-57): the S_IF bits of the
file kind or-ed with the permission bits. -/
def mode_from_kind_and_perm (kind : FileType) (perm : Nat) : Nat :=
  (match kind with
    | FileType.NamedPipe => S_IFIFO
    | FileType.CharDevice => S_IFCHR
    | FileType.BlockDevice => S_IFBLK
    | FileType.Directory => S_IFDIR
    | FileType.RegularFile => S_IFREG
    | FileType.Symlink => S_IFLNK) ||| perm

/-- 64-bit alignment of ReplyDirectory::add:
`(entlen + size_of::<u64>() - 1) & !(size_of::<u64>() - 1)`, i.e. round up to
the next multiple of 8 (clearing the low three bits is subtracting the
remainder). -/
def align8 (n : Nat) : Nat := (n + 7) - (n + 7) % 8

/-- One packed dirent record as written by ReplyDirectory::add (src/reply.rs
lines 535-548): the `fuse_dirent` fields `{ino, off, namelen, typ}` (with
`typ = mode_from_kind_and_perm(kind, 0) >> 12`), then the name bytes, then
zero padding of `padlen = entsize - entlen` bytes. -/
def direntBytes (ino offset : Nat) (kind : FileType) (name : List Nat) : List Nat :=
  u64le ino ++ u64le offset ++ u32le name.length
    ++ u32le (mode_from_kind_and_perm kind 0 >>> 12)
    ++ name ++ List.replicate (align8 (24 + name.length) - (24 + name.length)) 0

/-- State of a ReplyDirectory (src/reply.rs lines 506-510): the inner
ReplyRaw, the declared size, the buffer contents and the buffer capacity
(`Vec::with_capacity(4096)` at construction; `add` checks against
`self.data.capacity()`). -/
structure ReplyDirectory where
  reply : ReplyRaw
  size : Nat
  data : List Nat
  capacity : Nat
deriving DecidableEq, Repr

/-- ReplyDirectory construction (Reply::new for ReplyDirectory, src/reply.rs
lines 512-516). -/
def ReplyDirectory.new (unique : Nat) : ReplyDirectory :=
  { reply := { unique := unique, sender_present := true }, size := 0, data := [], capacity := 4096 }

/-- ReplyDirectory::add (src/reply.rs lines 529-550): `entlen` is
`size_of::<fuse_dirent>() + name.len() = 24 + namelen`, `entsize` its
8-byte alignment; if appending `entsize` bytes would exceed the buffer
capacity, return true (full) leaving the buffer untouched, else append the
packed dirent record and return false. -/
def ReplyDirectory.add (d : ReplyDirectory) (ino offset : Nat) (kind : FileType)
    (name : List Nat) : ReplyDirectory × Bool :=
  if d.data.length + align8 (24 + name.length) > d.capacity then (d, true)
  else ({ d with data := d.data ++ direntBytes ino offset kind name }, false)

/-- ReplyDirectory::ok (src/reply.rs lines 553-555): send the accumulated
buffer as the single payload group of a success reply. -/
def ReplyDirectory.ok (d : ReplyDirectory) : List (List Nat) :=
  (ReplyRaw.send d.reply 0 [d.data]).2

/-- One directory entry as passed by a handler to `add`. -/
structure DirEntry where
  ino : Nat
  off : Nat
  kind : FileType
  name : List Nat
deriving DecidableEq, Repr

/-- The aligned on-wire size of one directory entry. -/
def entsize (e : DirEntry) : Nat := align8 (24 + e.name.length)

/-- Sequence of `add` calls, collecting each call's full flag. -/
def addAll (d : ReplyDirectory) : List DirEntry → ReplyDirectory × List Bool
  | [] => (d, [])
  | e :: es =>
      let step := d.add e.ino e.off e.kind e.name
      let rest := addAll step.1 es
      (rest.1, step.2 :: rest.2)

theorem direntBytes_length (ino offset : Nat) (kind : FileType) (name : List Nat) :
    (direntBytes ino offset kind name).length = align8 (24 + name.length) := by
  simp [direntBytes, u64le, u32le, align8]
  omega

theorem align8_ge (n : Nat) : n ≤ align8 n := by
  simp [align8]
  omega

theorem add_accepted (d : ReplyDirectory) (ino offset : Nat) (kind : FileType)
    (name : List Nat) (h : ¬ d.data.length + align8 (24 + name.length) > d.capacity) :
    (d.add ino offset kind name).1.data.length = d.data.length + align8 (24 + name.length)
    ∧ (d.add ino offset kind name).1.capacity = d.capacity
    ∧ (d.add ino offset kind name).2 = false := by
  simp [ReplyDirectory.add, h, direntBytes_length]

theorem addAll_exact_fit (es : List DirEntry) (d : ReplyDirectory)
    (h : d.data.length + (es.map entsize).sum ≤ d.capacity) :
    (addAll d es).2 = es.map (fun _ => false)
    ∧ (addAll d es).1.data.length = d.data.length + (es.map entsize).sum
    ∧ (addAll d es).1.capacity = d.capacity := by
  induction es generalizing d with
  | nil => simp [addAll]
  | cons e es ih =>
      have hsum : 0 ≤ (es.map entsize).sum := Nat.zero_le _
      have hcond : ¬ d.data.length + align8 (24 + e.name.length) > d.capacity := by
        simp [entsize] at h
        omega
      obtain ⟨hlen, hcap, hflag⟩ := add_accepted d e.ino e.off e.kind e.name hcond
      have hrec := ih (d.add e.ino e.off e.kind e.name).1 (by
        rw [hlen, hcap]
        simp [entsize] at h ⊢
        omega)
      refine ⟨?_, ?_, ?_⟩
      · simp [addAll, hflag, hrec.1]
      · simp [addAll, hrec.2.1, hlen, entsize]
        omega
      · simp [addAll, hrec.2.2, hcap]

/-- C6: an `add` whose aligned entry would exceed the capacity returns true
and leaves the ReplyDirectory unchanged; an `add` never grows the buffer past
the capacity; and a buffer whose capacity is exactly the sum of the aligned
sizes of N entries accepts all N (each `add` returns false, the buffer ends
exactly at capacity) while one further `add` returns true. -/
theorem c6_directory_add_never_overflows (d : ReplyDirectory) (e : DirEntry)
    (es : List DirEntry) (hle : d.data.length ≤ d.capacity) :
    ((d.add e.ino e.off e.kind e.name).1.data.length ≤ d.capacity)
    ∧ ((d.add e.ino e.off e.kind e.name).2 = true → (d.add e.ino e.off e.kind e.name).1 = d)
    ∧ (d.data = [] → d.capacity = (es.map entsize).sum →
        (addAll d es).2 = es.map (fun _ => false)
        ∧ (addAll d es).1.data.length = d.capacity
        ∧ ((addAll d es).1.add e.ino e.off e.kind e.name).2 = true) := by
  refine ⟨?_, ?_, ?_⟩
  · by_cases hc : d.data.length + align8 (24 + e.name.length) > d.capacity
    · simp [ReplyDirectory.add, hc]
      exact hle
    · obtain ⟨hlen, _, _⟩ := add_accepted d e.ino e.off e.kind e.name hc
      omega
  · intro hfull
    by_cases hc : d.data.length + align8 (24 + e.name.length) > d.capacity
    · simp [ReplyDirectory.add, hc]
    · obtain ⟨_, _, hflag⟩ := add_accepted d e.ino e.off e.kind e.name hc
      rw [hflag] at hfull
      exact absurd hfull (by simp)
  · intro hnil hcap
    have hfit : d.data.length + (es.map entsize).sum ≤ d.capacity := by
      simp [hnil, hcap]
    obtain ⟨hflags, hlen, hcap2⟩ := addAll_exact_fit es d hfit
    refine ⟨hflags, by simp [hnil] at hlen; omega, ?_⟩
    have hlen2 : (addAll d es).1.data.length = d.capacity := by
      simp [hnil] at hlen
      omega
    have h24 : 24 ≤ align8 (24 + e.name.length) := le_trans (by omega) (align8_ge _)
    have hover : (addAll d es).1.data.length + align8 (24 + e.name.length)
        > (addAll d es).1.capacity := by
      rw [hlen2, hcap2]
      omega
    simp [ReplyDirectory.add, hover]

theorem c6_directory_add_never_overflows_witness :
    (ReplyDirectory.new 7).data.length ≤ (ReplyDirectory.new 7).capacity
    ∧ ((((ReplyDirectory.new 7).add 2 1 FileType.Directory [97, 98]).1).data.length
        ≤ (ReplyDirectory.new 7).capacity) :=
  ⟨by decide,
    (c6_directory_add_never_overflows (ReplyDirectory.new 7) ⟨2, 1, FileType.Directory, [97, 98]⟩
      [] (by decide)).1⟩

/-- C7: the readdir packing scenario: a ReplyDirectory for unique 0xdeadbeef
with capacity 4096 to which add(0xAABB, 1, Directory, "hello") and
add(0xCCDD, 2, RegularFile, "world.rs") are applied (both accepted) and then
ok, emits exactly one message: an out-header with len = 80 followed by the
two packed little-endian dirent records with their names and zero padding to
the next 8-byte boundary (type 4 for Directory, 8 for RegularFile). -/
theorem c7_readdir_packing :
    (addAll (ReplyDirectory.new 3735928559)
        [⟨43707, 1, FileType.Directory, [104, 101, 108, 108, 111]⟩,
         ⟨52445, 2, FileType.RegularFile, [119, 111, 114, 108, 100, 46, 114, 115]⟩]).2
      = [false, false]
    ∧ ReplyDirectory.ok
        (addAll (ReplyDirectory.new 3735928559)
          [⟨43707, 1, FileType.Directory, [104, 101, 108, 108, 111]⟩,
           ⟨52445, 2, FileType.RegularFile, [119, 111, 114, 108, 100, 46, 114, 115]⟩]).1
      = [[80, 0, 0, 0, 0, 0, 0, 0, 239, 190, 173, 222, 0, 0, 0, 0],
         [187, 170, 0, 0, 0, 0, 0, 0, 1, 0, 0, 0, 0, 0, 0, 0,
          5, 0, 0, 0, 4, 0, 0, 0, 104, 101, 108, 108, 111, 0, 0, 0,
          221, 204, 0, 0, 0, 0, 0, 0, 2, 0, 0, 0, 0, 0, 0, 0,
          8, 0, 0, 0, 8, 0, 0, 0, 119, 111, 114, 108, 100, 46, 114, 115]] := by
  decide

/-! ### Request parsing (src/request.rs, Request::new) -/

/-- Modelled from the spec: the argument cursor (module `argument`, whose
ArgumentIterator is used by Request::new) is not under src/. Spec section 4.2
defines its operations: fetch a typed record by reinterpreting the next
sizeof(T) bytes, and fetch the remaining bytes. Fetching a `fuse_in_header`
reinterprets the first 40 bytes of the buffer (repr(C), little-endian
host). -/
def fetch_fuse_in_header (b : List Nat) : fuse_in_header :=
  { len := decodeLE (b.take 4)
    opcode := decodeLE ((b.drop 4).take 4)
    unique := decodeLE ((b.drop 8).take 8)
    nodeid := decodeLE ((b.drop 16).take 8)
    uid := decodeLE ((b.drop 24).take 4)
    gid := decodeLE ((b.drop 28).take 4)
    pid := decodeLE ((b.drop 32).take 4)
    padding := decodeLE ((b.drop 36).take 4) }

/-- A parsed request: the in-header and the opcode-specific payload
(src/request.rs lines 58-69, without the sender and splice fd). -/
structure Request where
  header : fuse_in_header
  data : List Nat
deriving DecidableEq, Repr

/-- Request::new (src/request.rs lines 205-225): reject a buffer shorter than
the 40-byte `fuse_in_header`; fetch the header and the remaining bytes as
payload; reject when `buffer.len() < header.len`; otherwise yield the
request. -/
def Request.new (buffer : List Nat) : Option Request :=
  if buffer.length < 40 then none
  else if buffer.length < (fetch_fuse_in_header buffer).len then none
  else some { header := fetch_fuse_in_header buffer, data := buffer.drop 40 }

/-- A 48-byte buffer whose in-header declares len = 40 (opcode 3 = GETATTR,
unique 7, nodeid 1) followed by 8 trailing bytes beyond the declared
length. -/
def c8Buffer : List Nat :=
  [40, 0, 0, 0, 3, 0, 0, 0, 7, 0, 0, 0, 0, 0, 0, 0, 1, 0, 0, 0, 0, 0, 0, 0,
   0, 0, 0, 0, 0, 0, 0, 0, 0, 0, 0, 0, 0, 0, 0, 0, 0, 0, 0, 0, 0, 0, 0, 0]

/-- C8 counterexample: Request::new accepts a 48-byte buffer whose header
declares len = 40, so construction does not require `header.len` to equal
the buffer length (the code only rejects `buffer.len() < header.len`), and
the produced payload has 8 bytes, not `header.len - 40 = 0`. -/
theorem c8_request_new_cex :
    (Request.new c8Buffer).isSome = true
    ∧ c8Buffer.length = 48
    ∧ (fetch_fuse_in_header c8Buffer).len = 40
    ∧ ¬ ((Request.new c8Buffer).isSome
          ↔ (40 ≤ c8Buffer.length ∧ (fetch_fuse_in_header c8Buffer).len = c8Buffer.length))
    ∧ Request.new c8Buffer
        = some { header := { len := 40, opcode := 3, unique := 7, nodeid := 1,
                             uid := 0, gid := 0, pid := 0, padding := 0 },
                 data := [0, 0, 0, 0, 0, 0, 0, 0] } := by
  decide

/-- C8 amended: Request::new succeeds if and only if the buffer holds at
least the 40-byte in-header and at least `header.len` bytes; the produced
request carries the fetched header and all bytes after the header as
payload. -/
theorem c8_request_new_amended (b : List Nat) :
    ((Request.new b).isSome ↔ (40 ≤ b.length ∧ (fetch_fuse_in_header b).len ≤ b.length))
    ∧ (∀ r, Request.new b = some r →
        r.header = fetch_fuse_in_header b ∧ r.data = b.drop 40
        ∧ r.data.length = b.length - 40) := by
  constructor
  · by_cases h1 : b.length < 40
    · simp [Request.new, h1]
      try omega
    · by_cases h2 : b.length < (fetch_fuse_in_header b).len
      · simp [Request.new, h1, h2]
        try omega
      · simp [Request.new, h1, h2]
        try omega
  · intro r hr
    by_cases h1 : b.length < 40
    · simp [Request.new, h1] at hr
    · by_cases h2 : b.length < (fetch_fuse_in_header b).len
      · simp [Request.new, h1, h2] at hr
      · simp [Request.new, h1, h2] at hr
        subst hr
        simp

theorem c8_request_new_amended_witness :
    Request.new (c8Buffer.take 40)
        = some { header := { len := 40, opcode := 3, unique := 7, nodeid := 1,
                             uid := 0, gid := 0, pid := 0, padding := 0 }, data := [] }
    ∧ ({ header := { len := 40, opcode := 3, unique := 7, nodeid := 1,
                     uid := 0, gid := 0, pid := 0, padding := 0 }, data := [] } : Request).header
        = fetch_fuse_in_header (c8Buffer.take 40) :=
  ⟨by decide,
    ((c8_request_new_amended (c8Buffer.take 40)).2
      { header := { len := 40, opcode := 3, unique := 7, nodeid := 1,
                    uid := 0, gid := 0, pid := 0, padding := 0 }, data := [] }
      (by decide)).1⟩

/-! ### Dispatch (src/request.rs, Request::dispatch) -/

/-- The opcode enumeration of src/kernel.rs (non-macOS build). -/
inductive fuse_opcode where
  | FUSE_LOOKUP | FUSE_FORGET | FUSE_GETATTR | FUSE_SETATTR | FUSE_READLINK
  | FUSE_SYMLINK | FUSE_MKNOD | FUSE_MKDIR | FUSE_UNLINK | FUSE_RMDIR
  | FUSE_RENAME | FUSE_LINK | FUSE_OPEN | FUSE_READ | FUSE_WRITE
  | FUSE_STATFS | FUSE_RELEASE | FUSE_FSYNC | FUSE_SETXATTR | FUSE_GETXATTR
  | FUSE_LISTXATTR | FUSE_REMOVEXATTR | FUSE_FLUSH | FUSE_INIT | FUSE_OPENDIR
  | FUSE_READDIR | FUSE_RELEASEDIR | FUSE_FSYNCDIR | FUSE_GETLK | FUSE_SETLK
  | FUSE_SETLKW | FUSE_ACCESS | FUSE_CREATE | FUSE_INTERRUPT | FUSE_BMAP
  | FUSE_DESTROY | FUSE_IOCTL | FUSE_POLL | FUSE_NOTIFY_REPLY | FUSE_BATCH_FORGET
  | FUSE_FALLOCATE | FUSE_READDIRPLUS | FUSE_RENAME2 | FUSE_LSEEK | CUSE_INIT
deriving DecidableEq, Repr

/-- One filesystem trait method of the implementer interface as invoked by
the dispatcher. -/
inductive FsMethod where
  | init | destroy | lookup | forget | getattr | setattr | readlink | mknod
  | mkdir | unlink | rmdir | symlink | rename | rename2 | link | open | read
  | write | flush | release | fsync | opendir | readdir | readdirplus
  | releasedir | fsyncdir | statfs | setxattr | getxattr | listxattr
  | removexattr | access | create | getlk | setlk | bmap | ioctl | fallocate
  | lseek | forget_multi
deriving DecidableEq, Repr

/-- Observable action of one dispatch: a message sent on the channel (its
byte groups) or an invocation of an implementer filesystem method. -/
inductive Output where
  | sent (groups : List (List Nat))
  | fsCall (m : FsMethod)
deriving DecidableEq, Repr

/-- Mutable session state seen by the dispatcher (fuse/src/session.rs
lines 29-42): negotiated protocol version and the two lifecycle flags. -/
structure Session where
  proto_major : Nat
  proto_minor : Nat
  initialized : Bool
  destroyed : Bool
deriving DecidableEq, Repr

/-- The init-capability flags of src/kernel.rs used by INIT_FLAGS. -/
def FUSE_ASYNC_READ : Nat := 1
def FUSE_ATOMIC_O_TRUNC : Nat := 8
def FUSE_BIG_WRITES : Nat := 32
def FUSE_DONT_MASK : Nat := 64
def FUSE_WRITEBACK_CACHE : Nat := 65536
def FUSE_POSIX_ACL : Nat := 1048576

/-- INIT_FLAGS of src/request.rs lines 22-23 (non-macOS). -/
def INIT_FLAGS : Nat :=
  FUSE_ASYNC_READ ||| FUSE_BIG_WRITES ||| FUSE_ATOMIC_O_TRUNC ||| FUSE_POSIX_ACL
    ||| FUSE_WRITEBACK_CACHE ||| FUSE_DONT_MASK

/-- MAX_WRITE_SIZE of fuse/src/session.rs line 21: 16 MiB. -/
def MAX_WRITE_SIZE : Nat := 16777216

/-- The `fuse_init_in` record of src/kernel.rs. -/
structure fuse_init_in where
  major : Nat
  minor : Nat
  max_readahead : Nat
  flags : Nat
deriving DecidableEq, Repr

/-- The `fuse_init_out` record of src/kernel.rs (reserved is nine zero
u32 words). -/
structure fuse_init_out where
  major : Nat
  minor : Nat
  max_readahead : Nat
  flags : Nat
  max_background : Nat
  congestion_threshold : Nat
  max_write : Nat
  time_gran : Nat
deriving DecidableEq, Repr

/-- Serialization of a `fuse_init_out` (repr(C), little-endian host; the
trailing 36 zero bytes are the `reserved: [u32; 9]` field). -/
def fuse_init_out.bytes (o : fuse_init_out) : List Nat :=
  u32le o.major ++ u32le o.minor ++ u32le o.max_readahead ++ u32le o.flags
    ++ u16le o.max_background ++ u16le o.congestion_threshold
    ++ u32le o.max_write ++ u32le o.time_gran ++ List.replicate 36 0

/-- A dispatcher-sent error reply: `self.reply::<ReplyEmpty>().error(err)`. -/
def replyError (u : Nat) (err : Int) : Output :=
  Output.sent (ReplyRaw.error { unique := u, sender_present := true } err).2

/-- A dispatcher-sent empty success reply: `self.reply::<ReplyEmpty>().ok()`. -/
def replyOkEmpty (u : Nat) : Output :=
  Output.sent (ReplyRaw.send { unique := u, sender_present := true } 0 []).2

/-- The FUSE_INIT arm of Request::dispatch (src/request.rs lines 242-278):
reject kernel ABI below 7.6 with EPROTO; else record the kernel version,
call the implementer's init hook (whose outcome is the `fsInit` parameter:
some errno on failure), reply with its errno on failure, else mark the
session initialized and reply with the implementation's own version,
echoed max_readahead, the negotiated flags and the session write size. -/
def Request.dispatchInit (se : Session) (u : Nat) (arg : fuse_init_in)
    (fsInit : Option Int) : List Output × Session :=
  if arg.major < 7 ∨ (arg.major = 7 ∧ arg.minor < 6) then
    ([replyError u eprotoErrno], se)
  else
    match fsInit with
    | some err =>
        ([Output.fsCall FsMethod.init, replyError u err],
         { se with proto_major := arg.major, proto_minor := arg.minor })
    | none =>
        ([Output.fsCall FsMethod.init,
          Output.sent (ReplyRaw.ok { unique := u, sender_present := true }
            (fuse_init_out.bytes
              { major := 7, minor := 26, max_readahead := arg.max_readahead,
                flags := arg.flags &&& INIT_FLAGS, max_background := 0,
                congestion_threshold := 0, max_write := MAX_WRITE_SIZE,
                time_gran := 1 })).2],
         { se with proto_major := arg.major, proto_minor := arg.minor,
                   initialized := true })

/-- The per-opcode routing arms of Request::dispatch (src/request.rs lines
297-627), at the granularity of which implementer method is invoked or
which error the dispatcher itself replies. FUSE_INIT and FUSE_DESTROY do
not reach this function (they are matched earlier in dispatch). -/
def Request.route (op : fuse_opcode) (u : Nat) (ioctl_unrestricted : Bool) :
    List Output :=
  match op with
  | fuse_opcode.FUSE_INIT => []
  | fuse_opcode.FUSE_DESTROY => []
  | fuse_opcode.FUSE_INTERRUPT => [replyError u enosysErrno]
  | fuse_opcode.FUSE_LOOKUP => [Output.fsCall FsMethod.lookup]
  | fuse_opcode.FUSE_FORGET => [Output.fsCall FsMethod.forget]
  | fuse_opcode.FUSE_GETATTR => [Output.fsCall FsMethod.getattr]
  | fuse_opcode.FUSE_SETATTR => [Output.fsCall FsMethod.setattr]
  | fuse_opcode.FUSE_READLINK => [Output.fsCall FsMethod.readlink]
  | fuse_opcode.FUSE_MKNOD => [Output.fsCall FsMethod.mknod]
  | fuse_opcode.FUSE_MKDIR => [Output.fsCall FsMethod.mkdir]
  | fuse_opcode.FUSE_UNLINK => [Output.fsCall FsMethod.unlink]
  | fuse_opcode.FUSE_RMDIR => [Output.fsCall FsMethod.rmdir]
  | fuse_opcode.FUSE_SYMLINK => [Output.fsCall FsMethod.symlink]
  | fuse_opcode.FUSE_RENAME => [Output.fsCall FsMethod.rename]
  | fuse_opcode.FUSE_RENAME2 => [Output.fsCall FsMethod.rename2]
  | fuse_opcode.FUSE_LINK => [Output.fsCall FsMethod.link]
  | fuse_opcode.FUSE_OPEN => [Output.fsCall FsMethod.open]
  | fuse_opcode.FUSE_READ => [Output.fsCall FsMethod.read]
  | fuse_opcode.FUSE_WRITE => [Output.fsCall FsMethod.write]
  | fuse_opcode.FUSE_FLUSH => [Output.fsCall FsMethod.flush]
  | fuse_opcode.FUSE_RELEASE => [Output.fsCall FsMethod.release]
  | fuse_opcode.FUSE_FSYNC => [Output.fsCall FsMethod.fsync]
  | fuse_opcode.FUSE_OPENDIR => [Output.fsCall FsMethod.opendir]
  | fuse_opcode.FUSE_READDIR => [Output.fsCall FsMethod.readdir]
  | fuse_opcode.FUSE_READDIRPLUS => [Output.fsCall FsMethod.readdirplus]
  | fuse_opcode.FUSE_RELEASEDIR => [Output.fsCall FsMethod.releasedir]
  | fuse_opcode.FUSE_FSYNCDIR => [Output.fsCall FsMethod.fsyncdir]
  | fuse_opcode.FUSE_STATFS => [Output.fsCall FsMethod.statfs]
  | fuse_opcode.FUSE_SETXATTR => [Output.fsCall FsMethod.setxattr]
  | fuse_opcode.FUSE_GETXATTR => [Output.fsCall FsMethod.getxattr]
  | fuse_opcode.FUSE_LISTXATTR => [Output.fsCall FsMethod.listxattr]
  | fuse_opcode.FUSE_REMOVEXATTR => [Output.fsCall FsMethod.removexattr]
  | fuse_opcode.FUSE_ACCESS => [Output.fsCall FsMethod.access]
  | fuse_opcode.FUSE_CREATE => [Output.fsCall FsMethod.create]
  | fuse_opcode.FUSE_GETLK => [Output.fsCall FsMethod.getlk]
  | fuse_opcode.FUSE_SETLK => [Output.fsCall FsMethod.setlk]
  | fuse_opcode.FUSE_SETLKW => [Output.fsCall FsMethod.setlk]
  | fuse_opcode.FUSE_BMAP => [Output.fsCall FsMethod.bmap]
  | fuse_opcode.FUSE_IOCTL =>
      if ioctl_unrestricted then [replyError u enosysErrno]
      else [Output.fsCall FsMethod.ioctl]
  | fuse_opcode.FUSE_POLL => [replyError u enosysErrno]
  | fuse_opcode.FUSE_NOTIFY_REPLY => [replyError u enosysErrno]
  | fuse_opcode.FUSE_BATCH_FORGET => [Output.fsCall FsMethod.forget_multi]
  | fuse_opcode.FUSE_FALLOCATE => [Output.fsCall FsMethod.fallocate]
  | fuse_opcode.FUSE_LSEEK => [Output.fsCall FsMethod.lseek]
  | fuse_opcode.CUSE_INIT => [replyError u enosysErrno]

/-- Request::dispatch (src/request.rs lines 230-629): an unknown opcode
replies ENOSYS; FUSE_INIT is handled first; any other opcode before init
replies EIO; FUSE_DESTROY calls the implementer's destroy, marks the
session destroyed and replies ok; any other opcode after destroy replies
EIO; otherwise the opcode is routed. The argument mirrors the ordered
match arms with their two guards. -/
def Request.dispatch (se : Session) (opcode : Option fuse_opcode) (u : Nat)
    (arg : fuse_init_in) (fsInit : Option Int) (ioctl_unrestricted : Bool) :
    List Output × Session :=
  match opcode with
  | none => ([replyError u enosysErrno], se)
  | some op =>
      if op = fuse_opcode.FUSE_INIT then Request.dispatchInit se u arg fsInit
      else if se.initialized = false then ([replyError u eioErrno], se)
      else if op = fuse_opcode.FUSE_DESTROY then
        ([Output.fsCall FsMethod.destroy, replyOkEmpty u], { se with destroyed := true })
      else if se.destroyed = true then ([replyError u eioErrno], se)
      else (Request.route op u ioctl_unrestricted, se)

/-- C3: with the initialized flag still false, any recognized opcode other
than FUSE_INIT is answered by exactly one EIO error reply (a bare out-header
with len 16, error -EIO and the request's unique), the session state is
unchanged, and no implementer filesystem method is invoked. -/
theorem c3_preinit_yields_eio (se : Session) (op : fuse_opcode) (u : Nat)
    (arg : fuse_init_in) (fsInit : Option Int) (unrestricted : Bool)
    (hinit : se.initialized = false) (hop : op ≠ fuse_opcode.FUSE_INIT) :
    Request.dispatch se (some op) u arg fsInit unrestricted = ([replyError u eioErrno], se)
    ∧ replyError u eioErrno = Output.sent [fuse_out_header.bytes ⟨16, -eioErrno, u⟩]
    ∧ ∀ m, Output.fsCall m ∉ (Request.dispatch se (some op) u arg fsInit unrestricted).1 := by
  have h : Request.dispatch se (some op) u arg fsInit unrestricted
      = ([replyError u eioErrno], se) := by
    simp [Request.dispatch, hop, hinit]
  refine ⟨h, rfl, ?_⟩
  intro m
  rw [h]
  simp [replyError]

theorem c3_preinit_yields_eio_witness :
    ((⟨0, 0, false, false⟩ : Session).initialized = false)
    ∧ Request.dispatch ⟨0, 0, false, false⟩ (some fuse_opcode.FUSE_GETATTR) 42 ⟨7, 26, 0, 0⟩
        none false
      = ([replyError 42 eioErrno], ⟨0, 0, false, false⟩) :=
  ⟨rfl,
    (c3_preinit_yields_eio ⟨0, 0, false, false⟩ fuse_opcode.FUSE_GETATTR 42 ⟨7, 26, 0, 0⟩
      none false rfl (by decide)).1⟩

/-- C4 counterexample: with destroyed = true (and initialized = true), a
FUSE_DESTROY request is matched by the FUSE_DESTROY arm before the
post-destroy guard: the implementer's destroy method runs again and an
empty success reply (error 0) is sent, so dispatch does not yield an EIO
error reply for every opcode. -/
theorem c4_destroy_after_destroy_cex :
    Request.dispatch ⟨7, 26, true, true⟩ (some fuse_opcode.FUSE_DESTROY) 1 ⟨7, 26, 0, 0⟩
        none false
      = ([Output.fsCall FsMethod.destroy, Output.sent [fuse_out_header.bytes ⟨16, 0, 1⟩]],
         ⟨7, 26, true, true⟩)
    ∧ replyError 1 eioErrno
        ∉ (Request.dispatch ⟨7, 26, true, true⟩ (some fuse_opcode.FUSE_DESTROY) 1 ⟨7, 26, 0, 0⟩
            none false).1 := by
  decide

/-- C4 amended: with destroyed = true, any recognized opcode other than
FUSE_INIT and FUSE_DESTROY is answered by exactly one EIO error reply and
the session state is unchanged. -/
theorem c4_postdestroy_yields_eio (se : Session) (op : fuse_opcode) (u : Nat)
    (arg : fuse_init_in) (fsInit : Option Int) (unrestricted : Bool)
    (hdes : se.destroyed = true) (hop1 : op ≠ fuse_opcode.FUSE_INIT)
    (hop2 : op ≠ fuse_opcode.FUSE_DESTROY) :
    Request.dispatch se (some op) u arg fsInit unrestricted = ([replyError u eioErrno], se)
    ∧ replyError u eioErrno = Output.sent [fuse_out_header.bytes ⟨16, -eioErrno, u⟩]
    ∧ ∀ m, Output.fsCall m ∉ (Request.dispatch se (some op) u arg fsInit unrestricted).1 := by
  have h : Request.dispatch se (some op) u arg fsInit unrestricted
      = ([replyError u eioErrno], se) := by
    by_cases hi : se.initialized = false
    · simp [Request.dispatch, hop1, hi]
    · simp [Request.dispatch, hop1, hop2, hi, hdes]
  refine ⟨h, rfl, ?_⟩
  intro m
  rw [h]
  simp [replyError]

theorem c4_postdestroy_yields_eio_witness :
    ((⟨7, 26, true, true⟩ : Session).destroyed = true)
    ∧ Request.dispatch ⟨7, 26, true, true⟩ (some fuse_opcode.FUSE_GETATTR) 43 ⟨7, 26, 0, 0⟩
        none false
      = ([replyError 43 eioErrno], ⟨7, 26, true, true⟩) :=
  ⟨rfl,
    (c4_postdestroy_yields_eio ⟨7, 26, true, true⟩ fuse_opcode.FUSE_GETATTR 43 ⟨7, 26, 0, 0⟩
      none false rfl (by decide) (by decide)).1⟩

/-! ### The FUSE_INIT arm of the old dispatcher (src/session.rs) -/

/-- Observable action of the old Session::dispatch FUSE_INIT arm. The reply
payloads of this module are kept abstract as events because its wire
records come from the `native` module, which is not under src/. -/
inductive OldEvent where
  | sentError (unique : Nat) (err : Int)
  | sentInitReply (unique : Nat)
  | fsInitCall
deriving DecidableEq, Repr

/-- The FUSE_INIT arm of Session::dispatch (src/session.rs lines 100-132).
The version guard is embedded verbatim from line 104:
`arg.major < 7 || (arg.major < 7 && arg.minor < 6)` - note that the second
disjunct repeats `arg.major < 7` where src/request.rs line 247 has
`arg.major == 7`, so the minor version is never consulted. On acceptance the
kernel version is recorded, the filesystem's init hook runs (outcome in
`fsInit`), and on success the session is marked initialized and the init
reply is sent. -/
def OldSession.dispatchInit (se : Session) (u major minor : Nat)
    (fsInit : Option Int) : List OldEvent × Session :=
  if major < 7 ∨ (major < 7 ∧ minor < 6) then
    ([OldEvent.sentError u eprotoErrno], se)
  else
    match fsInit with
    | some err =>
        ([OldEvent.fsInitCall, OldEvent.sentError u err],
         { se with proto_major := major, proto_minor := minor })
    | none =>
        ([OldEvent.fsInitCall, OldEvent.sentInitReply u],
         { se with proto_major := major, proto_minor := minor, initialized := true })

/-- C5: divergence of the two dispatchers on an INIT with kernel ABI 7.5.
The old Session::dispatch of src/session.rs accepts it (the dead
`arg.major < 7 && arg.minor < 6` clause never rejects a 7.x minor): the
init hook runs, the session becomes initialized and no EPROTO reply is
sent - contradicting the code's own comment and error message. The
dispatcher of src/request.rs rejects the same input with a bare EPROTO
out-header, does not call the init hook and leaves initialized false, as
the claim states. -/
theorem c5_abi_7_5_divergence :
    (OldSession.dispatchInit ⟨0, 0, false, false⟩ 9 7 5 none).1
      = [OldEvent.fsInitCall, OldEvent.sentInitReply 9]
    ∧ (OldSession.dispatchInit ⟨0, 0, false, false⟩ 9 7 5 none).2.initialized = true
    ∧ OldEvent.sentError 9 eprotoErrno ∉ (OldSession.dispatchInit ⟨0, 0, false, false⟩ 9 7 5 none).1
    ∧ Request.dispatch ⟨0, 0, false, false⟩ (some fuse_opcode.FUSE_INIT) 9 ⟨7, 5, 0, 0⟩ none false
        = ([replyError 9 eprotoErrno], ⟨0, 0, false, false⟩)
    ∧ replyError 9 eprotoErrno = Output.sent [fuse_out_header.bytes ⟨16, -eprotoErrno, 9⟩]
    ∧ Output.fsCall FsMethod.init
        ∉ (Request.dispatch ⟨0, 0, false, false⟩ (some fuse_opcode.FUSE_INIT) 9 ⟨7, 5, 0, 0⟩
            none false).1
    ∧ (Request.dispatch ⟨0, 0, false, false⟩ (some fuse_opcode.FUSE_INIT) 9 ⟨7, 5, 0, 0⟩
        none false).2.initialized = false := by
  decide

/-! ### Session read loop (fuse/src/session.rs, Session::run) and the
low-level packet reader (src/lowlevel/session.rs, Session::next_packet) -/

/-- One iteration's channel receive outcome as seen by Session::run:
either the receive succeeded (and `parsed` says whether request::request
produced a Request from the buffer, which is then dispatched), or it failed
with the given raw os errno. -/
inductive ReadEvent where
  | received (parsed : Bool)
  | failed (e : Int)
deriving DecidableEq, Repr

/-- Result of Session::run on a finite trace: Ok, Err(e), or the trace was
exhausted while the loop would block on the next read. -/
inductive RunOutcome where
  | ok
  | err (e : Int)
  | pending
deriving DecidableEq, Repr

/-- Session::run (fuse/src/session.rs lines 69-98) over a finite trace of
receive outcomes: a received buffer that parses is dispatched and the loop
continues; a buffer that does not parse breaks the loop (run returns Ok);
ENOENT, EINTR and EAGAIN are retried in that match order; ENODEV breaks the
loop (run returns Ok); any other receive error is returned from run. -/
def Session.run : List ReadEvent → RunOutcome
  | [] => RunOutcome.pending
  | ReadEvent.received true :: rest => Session.run rest
  | ReadEvent.received false :: _ => RunOutcome.ok
  | ReadEvent.failed e :: rest =>
      if e = enoentErrno then Session.run rest
      else if e = eintrErrno then Session.run rest
      else if e = eagainErrno then Session.run rest
      else if e = enodevErrno then RunOutcome.ok
      else RunOutcome.err e

/-- Result of Session::next_packet: a packet of `len` bytes (Ok(Some)),
the unmounted channel (Ok(None)), an error, or an exhausted trace. -/
inductive NextPacketOutcome where
  | packet (len : Nat)
  | closed
  | err (e : Int)
  | pending
deriving DecidableEq, Repr

/-- Session::next_packet (src/lowlevel/session.rs lines 124-146) over a
finite trace of channel read outcomes: a successful read returns the packet;
ENOENT, EINTR and EAGAIN continue the loop in that match order; ENODEV
breaks and yields Ok(None); any other error is returned. -/
def Session.next_packet : List (Except Int Nat) → NextPacketOutcome
  | [] => NextPacketOutcome.pending
  | Except.ok len :: _ => NextPacketOutcome.packet len
  | Except.error e :: rest =>
      if e = enoentErrno then Session.next_packet rest
      else if e = eintrErrno then Session.next_packet rest
      else if e = eagainErrno then Session.next_packet rest
      else if e = enodevErrno then NextPacketOutcome.closed
      else NextPacketOutcome.err e

theorem run_transient (e : Int) (rest : List ReadEvent)
    (h : e = enoentErrno ∨ e = eintrErrno ∨ e = eagainErrno) :
    Session.run (ReadEvent.failed e :: rest) = Session.run rest := by
  rcases h with h | h | h <;> subst h <;>
    simp [Session.run, enoentErrno, eintrErrno, eagainErrno]

theorem run_enodev (rest : List ReadEvent) :
    Session.run (ReadEvent.failed enodevErrno :: rest) = RunOutcome.ok := by
  simp [Session.run, enoentErrno, eintrErrno, eagainErrno, enodevErrno]

theorem run_fatal (e : Int) (rest : List ReadEvent)
    (h1 : ¬(e = enoentErrno ∨ e = eintrErrno ∨ e = eagainErrno))
    (h2 : e ≠ enodevErrno) :
    Session.run (ReadEvent.failed e :: rest) = RunOutcome.err e := by
  push_neg at h1
  obtain ⟨g1, g2, g3⟩ := h1
  simp [Session.run, g1, g2, g3, h2]

theorem next_packet_transient (e : Int) (rest : List (Except Int Nat))
    (h : e = enoentErrno ∨ e = eintrErrno ∨ e = eagainErrno) :
    Session.next_packet (Except.error e :: rest) = Session.next_packet rest := by
  rcases h with h | h | h <;> subst h <;>
    simp [Session.next_packet, enoentErrno, eintrErrno, eagainErrno]

theorem next_packet_enodev (rest : List (Except Int Nat)) :
    Session.next_packet (Except.error enodevErrno :: rest) = NextPacketOutcome.closed := by
  simp [Session.next_packet, enoentErrno, eintrErrno, eagainErrno, enodevErrno]

theorem next_packet_fatal (e : Int) (rest : List (Except Int Nat))
    (h1 : ¬(e = enoentErrno ∨ e = eintrErrno ∨ e = eagainErrno))
    (h2 : e ≠ enodevErrno) :
    Session.next_packet (Except.error e :: rest) = NextPacketOutcome.err e := by
  push_neg at h1
  obtain ⟨g1, g2, g3⟩ := h1
  simp [Session.next_packet, g1, g2, g3, h2]

/-- C9: the read loop retries on ENOENT, EINTR and EAGAIN; a read failure
makes run return Ok exactly when the errno is ENODEV (or the failure is
retried and the remaining trace ends cleanly); any other read errno is
returned as the error of run. The same classification holds for the
low-level next_packet, where ENODEV yields the clean Ok(None). -/
theorem c9_read_loop_errno (e : Int) (rest : List ReadEvent)
    (rest2 : List (Except Int Nat)) :
    ((e = enoentErrno ∨ e = eintrErrno ∨ e = eagainErrno) →
        Session.run (ReadEvent.failed e :: rest) = Session.run rest)
    ∧ Session.run (ReadEvent.failed enodevErrno :: rest) = RunOutcome.ok
    ∧ (Session.run (ReadEvent.failed e :: rest) = RunOutcome.ok
        ↔ (e = enodevErrno
            ∨ ((e = enoentErrno ∨ e = eintrErrno ∨ e = eagainErrno)
                ∧ Session.run rest = RunOutcome.ok)))
    ∧ (¬(e = enoentErrno ∨ e = eintrErrno ∨ e = eagainErrno) → e ≠ enodevErrno →
        Session.run (ReadEvent.failed e :: rest) = RunOutcome.err e)
    ∧ ((e = enoentErrno ∨ e = eintrErrno ∨ e = eagainErrno) →
        Session.next_packet (Except.error e :: rest2) = Session.next_packet rest2)
    ∧ Session.next_packet (Except.error enodevErrno :: rest2) = NextPacketOutcome.closed
    ∧ (¬(e = enoentErrno ∨ e = eintrErrno ∨ e = eagainErrno) → e ≠ enodevErrno →
        Session.next_packet (Except.error e :: rest2) = NextPacketOutcome.err e) := by
  refine ⟨run_transient e rest, run_enodev rest, ?_, run_fatal e rest,
    next_packet_transient e rest2, next_packet_enodev rest2, next_packet_fatal e rest2⟩
  by_cases ht : e = enoentErrno ∨ e = eintrErrno ∨ e = eagainErrno
  · rw [run_transient e rest ht]
    constructor
    · intro h
      exact Or.inr ⟨ht, h⟩
    · rintro (h | ⟨_, h⟩)
      · exfalso
        rcases ht with h2 | h2 | h2 <;> rw [h2] at h <;>
          simp [enoentErrno, eintrErrno, eagainErrno, enodevErrno] at h
      · exact h
  · by_cases hd : e = enodevErrno
    · subst hd
      rw [run_enodev]
      simp
    · rw [run_fatal e rest ht hd]
      simp [ht, hd]

theorem c9_read_loop_errno_witness :
    (eintrErrno = enoentErrno ∨ eintrErrno = eintrErrno ∨ eintrErrno = eagainErrno)
    ∧ Session.run [ReadEvent.failed eintrErrno] = Session.run [] :=
  ⟨Or.inr (Or.inl rfl),
    (c9_read_loop_errno eintrErrno [] []).1 (Or.inr (Or.inl rfl))⟩

/-! ### Channel sender (src/channel.rs) -/

/-- Observable trace of sending one reply: the buffers of each writev
syscall issued and the errors logged. -/
structure SendTrace where
  writevCalls : List (List (List Nat))
  logged : List Int
deriving DecidableEq, Repr

/-- ChannelSender::send (src/channel.rs lines 108-125): builds one iovec per
byte group and issues a single writev; a negative return yields the thread
errno as Err, anything else Ok. The syscall outcome is supplied as the raw
return value `rc` and the errno. -/
def ChannelSender.send (buffer : List (List Nat)) (rc errno : Int) :
    SendTrace × Except Int Unit :=
  ({ writevCalls := [buffer], logged := [] },
   if rc < 0 then Except.error errno else Except.ok ())

/-- The ReplySender impl for ChannelSender (src/channel.rs lines 127-133):
calls ChannelSender::send once; on Err the error is logged; the method
returns unit in every case (its codomain here is the bare trace: there is
no error to propagate and no retry path). -/
def ReplySender.send (data : List (List Nat)) (rc errno : Int) : SendTrace :=
  match ChannelSender.send data rc errno with
  | (t, Except.error e) => { t with logged := t.logged ++ [e] }
  | (t, Except.ok _) => t

/-- C10: for every writev outcome, ReplySender::send issues exactly one
writev carrying the reply's byte groups (a failed reply is not retried),
logs the errno exactly when the writev failed, and its syscall behavior is
identical whatever the outcome is - the failure is swallowed, nothing is
propagated to the terminal method, the handler or the session loop. -/
theorem c10_reply_sender_swallows_write_errors (data : List (List Nat)) (rc errno : Int) :
    (ReplySender.send data rc errno).writevCalls = [data]
    ∧ ((ReplySender.send data rc errno).logged = if rc < 0 then [errno] else [])
    ∧ (∀ rc2 errno2, (ReplySender.send data rc errno).writevCalls
        = (ReplySender.send data rc2 errno2).writevCalls) := by
  by_cases h : rc < 0
  · refine ⟨?_, ?_, ?_⟩
    · simp [ReplySender.send, ChannelSender.send, h]
    · simp [ReplySender.send, ChannelSender.send, h]
    · intro rc2 errno2
      by_cases h2 : rc2 < 0 <;> simp [ReplySender.send, ChannelSender.send, h, h2]
  · refine ⟨?_, ?_, ?_⟩
    · simp [ReplySender.send, ChannelSender.send, h]
    · simp [ReplySender.send, ChannelSender.send, h]
    · intro rc2 errno2
      by_cases h2 : rc2 < 0 <;> simp [ReplySender.send, ChannelSender.send, h, h2]
